import Mathlib

/-
Verification development for the hospital resource scheduler repository.

The repository ships a React front end (scheduler-frontend/src) talking to a
FastAPI backend over three endpoints.  The front-end JavaScript is embedded
shallowly below: JSON values, the relevant JavaScript primitive semantics
(parseInt, truthiness, string coercion, JSON.stringify of NaN), the form
state machine of RequestForm.js, the API client of api.js, and the rendering
functions of SchedulePanel.js, AllocationResults.js and ResourceList.js.
The backend scheduler and validation code is not part of the exhibited
source; where a claim depends on it, the definition is modelled from the
specification and marked as such in its doc string.
-/

/-- JSON values as exchanged between the front end and the backend. -/
inductive Json where
  | null
  | bool (b : Bool)
  | str (s : String)
  | num (n : Int)
  | arr (xs : List Json)
  | obj (fields : List (String × Json))

/-- Property access `j.k` on a parsed JSON value: defined on objects,
`none` (JavaScript undefined) otherwise. -/
def jlookup (j : Json) (k : String) : Option Json :=
  match j with
  | Json.obj fields => fields.lookup k
  | _ => none

/-- JavaScript truthiness of a JSON value; `none` stands for undefined. -/
def jsTruthy : Option Json → Bool
  | none => false
  | some Json.null => false
  | some (Json.bool b) => b
  | some (Json.str s) => s ≠ ""
  | some (Json.num n) => n ≠ 0
  | some (Json.arr _) => true
  | some (Json.obj _) => true

/-- How React renders a JSON value as a text child: strings verbatim,
numbers via decimal notation, null/undefined/booleans as nothing.
(Arrays and objects never occur as rendered fields of this app's data and
are mapped to the empty string.) -/
def displayJson : Option Json → String
  | none => ""
  | some Json.null => ""
  | some (Json.bool _) => ""
  | some (Json.str s) => s
  | some (Json.num n) => toString n
  | some (Json.arr _) => ""
  | some (Json.obj _) => ""

/-- JavaScript string coercion used by the `+` operator in
`"Request submitted! ID = " + res.id` (RequestForm.js line 15).
`none` stands for undefined. (Array stringification is not exercised by
this app and is mapped to the empty string.) -/
def jsAddToString : Option Json → String
  | none => "undefined"
  | some Json.null => "null"
  | some (Json.bool b) => if b then "true" else "false"
  | some (Json.str s) => s
  | some (Json.num n) => toString n
  | some (Json.arr _) => ""
  | some (Json.obj _) => "[object Object]"

/-- Leading decimal digit run of a character list, as consumed by
JavaScript parseInt; `none` when there is no digit (parseInt returns NaN). -/
def parseDigits (cs : List Char) : Option Nat :=
  let ds := cs.takeWhile Char.isDigit
  if ds.isEmpty then none
  else some (ds.foldl (fun a c => a * 10 + (c.toNat - 48)) 0)

/-- JavaScript parseInt with radix 10 on a string: skip leading whitespace,
optional sign, longest leading digit run; `none` models NaN. -/
def parseIntJS (s : String) : Option Int :=
  let cs := s.data.dropWhile (fun c => c = ' ' || c = '\t' || c = '\n' || c = '\r')
  match cs with
  | '-' :: rest => (parseDigits rest).map (fun n => -(n : Int))
  | '+' :: rest => (parseDigits rest).map (fun n => (n : Int))
  | rest => (parseDigits rest).map (fun n => (n : Int))

/-- The state held by RequestForm.js (lines 5-10).  JavaScript numbers that
may be NaN are modelled as `Option Int`, NaN being `none`. -/
structure FormState where
  patient_name : String
  resource_type : String
  priority : Option Int
  duration : Option Int
deriving DecidableEq

/-- Initial form state of RequestForm.js lines 5-10. -/
def initialForm : FormState :=
  { patient_name := "", resource_type := "Bed", priority := some 2, duration := some 30 }

/-- The option values of the resource-type select (RequestForm.js lines 33-35). -/
def resourceTypeOptions : List String := ["Bed", "Doctor", "Operating Room"]

/-- The option values of the priority select (RequestForm.js lines 42-45),
as the strings delivered by e.target.value. -/
def priorityOptionValues : List String := ["1", "2", "3", "4"]

/-- The (value, visible label) pairs of the priority select
(RequestForm.js lines 42-45). -/
def priorityOptionLabels : List (String × String) :=
  [("1", "Critical"), ("2", "High"), ("3", "Medium"), ("4", "Low")]

/-- An onChange event of one of the four form controls, carrying the
e.target.value string. -/
inductive FormEvent where
  | setPatientName (v : String)
  | setResourceType (v : String)
  | setPriority (v : String)
  | setDuration (v : String)

/-- The setForm call performed by each onChange handler
(RequestForm.js lines 26, 31, 40, 52); the two numeric fields go through
parseInt. -/
def applyEvent (s : FormState) : FormEvent → FormState
  | FormEvent.setPatientName v => { s with patient_name := v }
  | FormEvent.setResourceType v => { s with resource_type := v }
  | FormEvent.setPriority v => { s with priority := parseIntJS v }
  | FormEvent.setDuration v => { s with duration := parseIntJS v }

/-- Events the browser can actually deliver: the two select controls only
ever report one of their option values; the two text inputs report any
string. -/
inductive ValidEvent : FormEvent → Prop
  | setPatientName (v : String) : ValidEvent (FormEvent.setPatientName v)
  | setResourceType (v : String) (h : v ∈ resourceTypeOptions) :
      ValidEvent (FormEvent.setResourceType v)
  | setPriority (v : String) (h : v ∈ priorityOptionValues) :
      ValidEvent (FormEvent.setPriority v)
  | setDuration (v : String) : ValidEvent (FormEvent.setDuration v)

/-- Form states reachable from the initial state through deliverable events. -/
inductive Reachable : FormState → Prop
  | init : Reachable initialForm
  | step (s : FormState) (e : FormEvent) :
      Reachable s → ValidEvent e → Reachable (applyEvent s e)

/-- JSON.stringify of a JavaScript number field: NaN serializes to null. -/
def jsonNumberOrNull : Option Int → Json
  | none => Json.null
  | some n => Json.num n

/-- The JSON body JSON.stringify produces for the form state, in insertion
order of RequestForm.js lines 5-10. -/
def jsonOfForm (s : FormState) : Json :=
  Json.obj [("patient_name", Json.str s.patient_name),
            ("resource_type", Json.str s.resource_type),
            ("priority", jsonNumberOrNull s.priority),
            ("duration", jsonNumberOrNull s.duration)]

/-- Backend base URL (api.js line 1). -/
def BASE_URL : String := "http://127.0.0.1:8000"

/-- A fetch call as issued by api.js: url, method and optional JSON body. -/
structure FetchCall where
  url : String
  method : String
  body : Option Json

/-- The fetch call issued by createRequest (api.js lines 3-8). -/
def createRequestCall (data : Json) : FetchCall :=
  { url := BASE_URL ++ "/request", method := "POST", body := some data }

/-- The fetch call issued by runScheduler (api.js lines 12-15): the
algorithm identifier is interpolated into the URL path. -/
def runSchedulerCall (alg : String) : FetchCall :=
  { url := BASE_URL ++ "/schedule/" ++ alg, method := "POST", body := none }

/-- The fetch call issued by getResources (api.js lines 19-21). -/
def getResourcesCall : FetchCall :=
  { url := BASE_URL ++ "/resources", method := "GET", body := none }

/-- An HTTP response as seen by the api.js functions: a status code and the
result of parsing the body as JSON (`none` when the body is not JSON, in
which case res.json() rejects). -/
structure HttpResponse where
  status : Nat
  parsedBody : Option Json

/-- res.json(): yields the parsed body, or a thrown parse error. -/
def resJson (res : HttpResponse) : Except Unit Json :=
  match res.parsedBody with
  | some j => Except.ok j
  | none => Except.error ()

/-- Value returned by createRequest for a given response (api.js line 9). -/
def createRequestResult (res : HttpResponse) : Except Unit Json := resJson res

/-- Value returned by runScheduler for a given response (api.js line 16). -/
def runSchedulerResult (res : HttpResponse) : Except Unit Json := resJson res

/-- Value returned by getResources for a given response (api.js line 21). -/
def getResourcesResult (res : HttpResponse) : Except Unit Json := resJson res

/-- RequestForm handleSubmit (RequestForm.js lines 12-16): always issues the
createRequest call with the current form state serialized, then alerts with
the id field of the response. -/
def requestFormOnSubmit (s : FormState) (resp : Json) : FetchCall × String :=
  (createRequestCall (jsonOfForm s),
   "Request submitted! ID = " ++ jsAddToString (jlookup resp "id"))

/-- The three buttons of SchedulePanel.js (lines 14-16). -/
inductive SchedButton where
  | fcfsBtn
  | priorityBtn
  | rrBtn

/-- The algorithm identifier each SchedulePanel button passes to run(alg)
(SchedulePanel.js lines 14-16). -/
def buttonAlg : SchedButton → String
  | SchedButton.fcfsBtn => "fcfs"
  | SchedButton.priorityBtn => "priority"
  | SchedButton.rrBtn => "rr"

/-- The argument SchedulePanel passes to setAllocations
(SchedulePanel.js line 7): res.allocations when truthy, else the empty
array. -/
def runAllocationsArg (res : Json) : Json :=
  match jlookup res "allocations" with
  | none => Json.arr []
  | some v => if jsTruthy (some v) then v else Json.arr []

/-- One allocation line of AllocationResults.js lines 8-10: it reads the
fields patient, resource and resource_type of the allocation object. -/
def renderAllocationLine (a : Json) : String :=
  displayJson (jlookup a "patient") ++ " → " ++ displayJson (jlookup a "resource")
    ++ " (" ++ displayJson (jlookup a "resource_type") ++ ")"

/-- What AllocationResults renders: the empty-state paragraph or the
header plus one line per allocation. -/
inductive AllocView where
  | emptyMsg
  | listing (header : String) (lines : List String)

/-- AllocationResults.js: line 2 returns the empty-state paragraph exactly
when the list has length zero; otherwise lines 4-12 render the header and
the allocation lines. -/
def allocationResults (allocations : List Json) : AllocView :=
  if allocations.length = 0 then AllocView.emptyMsg
  else AllocView.listing "Scheduling Output" (allocations.map renderAllocationLine)

/-- One rendered resource card of ResourceList.js lines 24-28. -/
structure ResourceCard where
  cardKey : Option Json
  cardClass : String
  title : String
  typeLine : String
  statusLine : String

/-- ResourceList.js lines 24-28: the card reads the fields id (key),
name (title), type and status of the resource object. -/
def renderResourceCard (r : Json) : ResourceCard :=
  { cardKey := jlookup r "id"
    cardClass := "resource-card " ++ displayJson (jlookup r "status")
    title := displayJson (jlookup r "name")
    typeLine := "Type: " ++ displayJson (jlookup r "type")
    statusLine := "Status: " ++ displayJson (jlookup r "status") }

/-- Resource status in the core data model. -/
inductive RStatus where
  | available
  | occupied
  | maintenance
deriving DecidableEq

/-- Modelled from the spec: a Resource of the core inventory (the backend
models/resource.py is not among the exhibited sources) — unique id, type,
human label, status. -/
structure Resource where
  id : Nat
  rtype : String
  label : String
  status : RStatus
deriving DecidableEq

/-- Modelled from the spec: a Request of the core (backend models are not
among the exhibited sources) — id, patient name, requested type, priority
(lower value = higher precedence), duration in minutes, arrival timestamp. -/
structure CoreRequest where
  id : Nat
  patient_name : String
  resource_type : String
  priority : Int
  duration : Int
  arrival : Nat
deriving DecidableEq

/-- Strict ordering on the sort key (priority ascending, arrival ascending)
used by the Priority scheduler. -/
def priorityBefore (a b : CoreRequest) : Bool :=
  a.priority < b.priority || (a.priority = b.priority && a.arrival < b.arrival)

/-- Insert a request into a list sorted by `priorityBefore`, after every
element it does not strictly precede. -/
def insertByPriority (r : CoreRequest) : List CoreRequest → List CoreRequest
  | [] => [r]
  | x :: xs => if priorityBefore r x then r :: x :: xs else x :: insertByPriority r xs

/-- Modelled from the spec: the Priority scheduler's stable sort of the
dequeued batch by (priority ascending, arrival timestamp ascending); the
backend priority_scheduler.py is not among the exhibited sources. -/
def prioritySort : List CoreRequest → List CoreRequest
  | [] => []
  | r :: rs => insertByPriority r (prioritySort rs)

/-- Earliest Available resource of the given type, in the order of the
inventory list (kept in ascending id order). -/
def findAvailable (inv : List Resource) (t : String) : Option Resource :=
  inv.find? (fun x => x.rtype == t && x.status == RStatus.available)

/-- Flip the resource with the given id to Occupied. -/
def reserve (inv : List Resource) (rid : Nat) : List Resource :=
  inv.map (fun x => if x.id = rid then { x with status := RStatus.occupied } else x)

/-- An allocation decision emitted by a scheduling pass. -/
structure AllocationDecision where
  requestId : Nat
  resourceId : Nat
  assignedDuration : Int
deriving DecidableEq

/-- Modelled from the spec: the FCFS walk shared by the schedulers — take
requests in the given order, reserve the earliest available matching-type
resource on success, leave the request unallocated on failure; the backend
fcfs_scheduler.py is not among the exhibited sources. -/
def fcfsWalk : List CoreRequest → List Resource → List AllocationDecision × List CoreRequest
  | [], _ => ([], [])
  | r :: rs, inv =>
    match findAvailable inv r.resource_type with
    | some x =>
      let rest := fcfsWalk rs (reserve inv x.id)
      (⟨r.id, x.id, r.duration⟩ :: rest.fst, rest.snd)
    | none =>
      let rest := fcfsWalk rs inv
      (rest.fst, r :: rest.snd)

/-- Modelled from the spec: one Priority scheduling pass — stable-sort the
batch by (priority, arrival), then proceed exactly as FCFS over the sorted
order. -/
def priorityPlan (reqs : List CoreRequest) (inv : List Resource) :
    List AllocationDecision × List CoreRequest :=
  fcfsWalk (prioritySort reqs) inv

/-- The four-request batch of the spec's Priority example: priorities
[3,1,2,1] in arrival order, all requesting a Bed. -/
def specPriorityBatch : List CoreRequest :=
  [⟨1, "P1", "Bed", 3, 30, 1⟩,
   ⟨2, "P2", "Bed", 1, 30, 2⟩,
   ⟨3, "P3", "Bed", 2, 30, 3⟩,
   ⟨4, "P4", "Bed", 1, 30, 4⟩]

/-- An ample inventory: four Available beds, ascending id. -/
def ampleBeds : List Resource :=
  [⟨1, "Bed", "Bed 1", RStatus.available⟩,
   ⟨2, "Bed", "Bed 2", RStatus.available⟩,
   ⟨3, "Bed", "Bed 3", RStatus.available⟩,
   ⟨4, "Bed", "Bed 4", RStatus.available⟩]

/-- The three fields a submission can fail validation on. -/
inductive ValidationError where
  | badResourceType
  | badPriority
  | badDuration
deriving DecidableEq

/-- The field name a validation error reports as having failed. -/
def validationField : ValidationError → String
  | ValidationError.badResourceType => "resource_type"
  | ValidationError.badPriority => "priority"
  | ValidationError.badDuration => "duration"

/-- The resource types the core recognizes, per the spec's data model. -/
def coreResourceTypes : List String := ["Bed", "Doctor", "OperatingRoom"]

/-- Modelled from the spec: synchronous validation at submission — unknown
resourceType, priority outside 1-4, or non-positive duration is rejected
with the specific field that failed; the backend resource_manager.py is not
among the exhibited sources. -/
def validateSubmission (resource_type : String) (priority : Int) (duration : Int) :
    Option ValidationError :=
  if resource_type ∈ coreResourceTypes then
    if 1 ≤ priority ∧ priority ≤ 4 then
      if 0 < duration then none
      else some ValidationError.badDuration
    else some ValidationError.badPriority
  else some ValidationError.badResourceType

/-- State owned by the Resource Manager that submission touches: the id
counter, the logical clock for arrival timestamps, and the request queue. -/
structure ManagerState where
  nextId : Nat
  clock : Nat
  queue : List CoreRequest
deriving DecidableEq

/-- Modelled from the spec: submitRequest validates inputs, and only on
success assigns id and arrival timestamp, enqueues at the back and returns
the assigned id; on failure nothing is enqueued and the error names the
failing field; the backend resource_manager.py is not among the exhibited
sources. -/
def submitRequest (st : ManagerState) (patient : String) (resource_type : String)
    (priority : Int) (duration : Int) : Except ValidationError (ManagerState × Nat) :=
  match validateSubmission resource_type priority duration with
  | some e => Except.error e
  | none =>
    let r : CoreRequest :=
      ⟨st.nextId, patient, resource_type, priority, duration, st.clock⟩
    Except.ok ({ nextId := st.nextId + 1, clock := st.clock + 1, queue := st.queue ++ [r] },
               st.nextId)

/-- An allocation object shaped as the claim names its fields
(patientName, resourceLabel, resourceType, durationMinutes). -/
def specFieldAlloc : Json :=
  Json.obj [("patientName", Json.str "John Doe"), ("resourceLabel", Json.str "Dr. Smith"),
            ("resourceType", Json.str "doctor"), ("durationMinutes", Json.num 30)]

/-- The allocation object shape the backend returns, taken from the README
example response: fields patient, resource, resource_type, duration. -/
def backendAllocExample : Json :=
  Json.obj [("patient", Json.str "John Doe"), ("resource", Json.str "Dr. Smith"),
            ("resource_type", Json.str "doctor"), ("duration", Json.num 30)]

/-- A resource object shaped as the claim names its fields
(id, type, label, status). -/
def specFieldResource : Json :=
  Json.obj [("id", Json.num 1), ("type", Json.str "bed"),
            ("label", Json.str "Bed 1"), ("status", Json.str "Available")]

/-- A resource object shaped as ResourceList.js consumes it:
fields id, name, type, status. -/
def backendResourceExample : Json :=
  Json.obj [("id", Json.num 1), ("name", Json.str "Bed 1"),
            ("type", Json.str "bed"), ("status", Json.str "Available")]

/-- A reachable form state: the user picks Operating Room, then clears the
duration input. -/
def c2State : FormState :=
  applyEvent (applyEvent initialForm (FormEvent.setResourceType "Operating Room"))
    (FormEvent.setDuration "")

/-- Invariant of reachable form states: the resource type stays within the
select options, the priority within the four parsed option values, and the
duration is the initial 30 or the parseInt of some typed input. -/
theorem reachable_form_invariant (s : FormState) (h : Reachable s) :
    s.resource_type ∈ resourceTypeOptions ∧
    s.priority ∈ ([some 1, some 2, some 3, some 4] : List (Option Int)) ∧
    (s.duration = some 30 ∨ ∃ v : String, s.duration = parseIntJS v) := by
  induction h with
  | init => exact ⟨by decide, by decide, Or.inl rfl⟩
  | step s e hr he ih =>
    cases he with
    | setPatientName v => exact ⟨ih.1, ih.2.1, ih.2.2⟩
    | setResourceType v hv => exact ⟨hv, ih.2.1, ih.2.2⟩
    | setPriority v hv =>
      refine ⟨ih.1, ?_, ih.2.2⟩
      simp only [priorityOptionValues, List.mem_cons, List.not_mem_nil, or_false] at hv
      have hp : ∀ w, (applyEvent s (FormEvent.setPriority w)).priority = parseIntJS w :=
        fun w => rfl
      rcases hv with rfl | rfl | rfl | rfl <;> rw [hp] <;> decide
    | setDuration v => exact ⟨ih.1, ih.2.1, Or.inr ⟨v, rfl⟩⟩

/-- C1 counterexample: the Round Robin button of SchedulePanel passes the
identifier rr to the run-a-scheduling-pass call, and rr is not among
fcfs, priority, roundRobin. -/
theorem C1_counterexample :
    buttonAlg SchedButton.rrBtn = "rr" ∧
    buttonAlg SchedButton.rrBtn ∉ (["fcfs", "priority", "roundRobin"] : List String) ∧
    (runSchedulerCall (buttonAlg SchedButton.rrBtn)).url =
      "http://127.0.0.1:8000/schedule/rr" :=
  ⟨rfl, by decide, rfl⟩

/-- C1 (amended): every scheduling pass triggered from SchedulePanel sends
an algorithm identifier in exactly the set fcfs, priority, rr, interpolated
into the schedule URL; in particular the Round Robin button sends rr. -/
theorem C1_button_identifiers :
    (∀ b : SchedButton, buttonAlg b ∈ (["fcfs", "priority", "rr"] : List String) ∧
      (runSchedulerCall (buttonAlg b)).url = BASE_URL ++ "/schedule/" ++ buttonAlg b) ∧
    buttonAlg SchedButton.rrBtn = "rr" := by
  refine ⟨fun b => ⟨?_, rfl⟩, rfl⟩
  cases b <;> decide

/-- C2 counterexample: the reachable form state that picks the third
resource option and clears the duration field sends resource_type
Operating Room — which is not among Bed, Doctor, OperatingRoom — and a
null duration rather than a positive integer. -/
theorem C2_counterexample :
    Reachable c2State ∧
    jlookup (jsonOfForm c2State) "resource_type" = some (Json.str "Operating Room") ∧
    "Operating Room" ∉ (["Bed", "Doctor", "OperatingRoom"] : List String) ∧
    jlookup (jsonOfForm c2State) "duration" = some Json.null := by
  refine ⟨?_, rfl, by decide, rfl⟩
  have h1 : Reachable (applyEvent initialForm (FormEvent.setResourceType "Operating Room")) :=
    Reachable.step _ _ Reachable.init (ValidEvent.setResourceType _ (by decide))
  exact Reachable.step _ _ h1 (ValidEvent.setDuration "")

/-- C2 (amended): every submission from the create-request form carries a
patient_name string, a resource_type drawn from exactly Bed, Doctor,
Operating Room, a priority in 1-4, and a duration that is the initial 30 or
whatever parseInt made of the last duration input (serialized as null when
it parsed to NaN); the id field of the response is surfaced to the user in
the alert. -/
theorem C2_submission_payload :
    ∀ (s : FormState) (resp : Json), Reachable s →
      jlookup (jsonOfForm s) "patient_name" = some (Json.str s.patient_name) ∧
      s.resource_type ∈ resourceTypeOptions ∧
      s.priority ∈ ([some 1, some 2, some 3, some 4] : List (Option Int)) ∧
      jlookup (jsonOfForm s) "duration" = some (jsonNumberOrNull s.duration) ∧
      (s.duration = some 30 ∨ ∃ v : String, s.duration = parseIntJS v) ∧
      (requestFormOnSubmit s resp).snd =
        "Request submitted! ID = " ++ jsAddToString (jlookup resp "id") := by
  intro s resp hs
  obtain ⟨h1, h2, h3⟩ := reachable_form_invariant s hs
  exact ⟨rfl, h1, h2, rfl, h3, rfl⟩

/-- Witness for C2 (amended) at the initial form state and a response
carrying id 7. -/
theorem C2_submission_payload_witness :
    jlookup (jsonOfForm initialForm) "patient_name" =
      some (Json.str initialForm.patient_name) ∧
    initialForm.resource_type ∈ resourceTypeOptions ∧
    initialForm.priority ∈ ([some 1, some 2, some 3, some 4] : List (Option Int)) ∧
    jlookup (jsonOfForm initialForm) "duration" =
      some (jsonNumberOrNull initialForm.duration) ∧
    (initialForm.duration = some 30 ∨ ∃ v : String, initialForm.duration = parseIntJS v) ∧
    (requestFormOnSubmit initialForm (Json.obj [("id", Json.num 7)])).snd =
      "Request submitted! ID = " ++
        jsAddToString (jlookup (Json.obj [("id", Json.num 7)]) "id") :=
  C2_submission_payload initialForm (Json.obj [("id", Json.num 7)]) Reachable.init

/-- C3: the priority select offers exactly the four levels Critical=1,
High=2, Medium=3, Low=4 (values as parsed by the onChange handler), and
every reachable form state — hence every submission — carries a priority
in 1,2,3,4. -/
theorem C3_priority_levels :
    priorityOptionLabels.map (fun p => (parseIntJS p.fst, p.snd)) =
      [(some 1, "Critical"), (some 2, "High"), (some 3, "Medium"), (some 4, "Low")] ∧
    ∀ s : FormState, Reachable s →
      s.priority ∈ ([some 1, some 2, some 3, some 4] : List (Option Int)) :=
  ⟨by decide, fun s hs => (reachable_form_invariant s hs).2.1⟩

/-- Witness for C3 at a concrete reachable state: after selecting Low the
stored priority is 4. -/
theorem C3_priority_levels_witness :
    (applyEvent initialForm (FormEvent.setPriority "4")).priority ∈
      ([some 1, some 2, some 3, some 4] : List (Option Int)) :=
  C3_priority_levels.2 (applyEvent initialForm (FormEvent.setPriority "4"))
    (Reachable.step initialForm (FormEvent.setPriority "4") Reachable.init
      (ValidEvent.setPriority "4" (by decide)))

/-- C4: under the Priority algorithm, the batch with priorities [3,1,2,1]
in arrival order and ample resources is allocated in the order
[R2, R4, R3, R1], with no request left unallocated. -/
theorem C4_priority_order :
    (priorityPlan specPriorityBatch ampleBeds).fst.map AllocationDecision.requestId =
      [2, 4, 3, 1] ∧
    (priorityPlan specPriorityBatch ampleBeds).snd = [] :=
  ⟨rfl, rfl⟩

/-- C5 counterexample: an allocation object carrying exactly the fields the
claim names (patientName, resourceLabel, resourceType, durationMinutes)
renders as an empty line, while the README-shaped object (patient,
resource, resource_type, duration) renders its values; the claimed field
names are absent from the latter. -/
theorem C5_counterexample :
    renderAllocationLine specFieldAlloc = " →  ()" ∧
    renderAllocationLine backendAllocExample = "John Doe → Dr. Smith (doctor)" ∧
    jlookup backendAllocExample "patientName" = none ∧
    jlookup backendAllocExample "durationMinutes" = none :=
  ⟨rfl, rfl, rfl, rfl⟩

/-- C5 (amended): each allocation line the UI renders is determined by
exactly the fields patient, resource and resource_type of the allocation
object (the returned duration field is not rendered), and an object
carrying those fields renders their values. -/
theorem C5_rendered_fields :
    (∀ a b : Json,
      jlookup a "patient" = jlookup b "patient" →
      jlookup a "resource" = jlookup b "resource" →
      jlookup a "resource_type" = jlookup b "resource_type" →
      renderAllocationLine a = renderAllocationLine b) ∧
    (∀ p r t : String,
      renderAllocationLine (Json.obj [("patient", Json.str p), ("resource", Json.str r),
        ("resource_type", Json.str t), ("duration", Json.num 30)]) =
      p ++ " → " ++ r ++ " (" ++ t ++ ")") := by
  constructor
  · intro a b h1 h2 h3
    simp [renderAllocationLine, h1, h2, h3]
  · intro p r t
    rfl

/-- Witness for C5 (amended): the README-shaped allocation renders the same
as the object stripped to the three consumed fields. -/
theorem C5_rendered_fields_witness :
    renderAllocationLine backendAllocExample =
      renderAllocationLine (Json.obj [("patient", Json.str "John Doe"),
        ("resource", Json.str "Dr. Smith"), ("resource_type", Json.str "doctor")]) :=
  C5_rendered_fields.1 backendAllocExample
    (Json.obj [("patient", Json.str "John Doe"), ("resource", Json.str "Dr. Smith"),
      ("resource_type", Json.str "doctor")]) rfl rfl rfl

/-- C6 counterexample: a resource object carrying exactly the fields the
claim names (id, type, label, status) renders with an empty title — its
label value is never read — while the object carrying a name field renders
that name as the card title. -/
theorem C6_counterexample :
    (renderResourceCard specFieldResource).title = "" ∧
    jlookup specFieldResource "label" = some (Json.str "Bed 1") ∧
    (renderResourceCard backendResourceExample).title = "Bed 1" :=
  ⟨rfl, rfl, rfl⟩

/-- C6 (amended): each resource card the UI renders is determined by
exactly the fields id, name, type and status of the resource object, and
an object carrying those fields renders them as key, title, type line,
status line and status-styled card class. -/
theorem C6_rendered_fields :
    (∀ a b : Json,
      jlookup a "id" = jlookup b "id" →
      jlookup a "name" = jlookup b "name" →
      jlookup a "type" = jlookup b "type" →
      jlookup a "status" = jlookup b "status" →
      renderResourceCard a = renderResourceCard b) ∧
    (∀ (i : Int) (n t st : String),
      renderResourceCard (Json.obj [("id", Json.num i), ("name", Json.str n),
        ("type", Json.str t), ("status", Json.str st)]) =
      { cardKey := some (Json.num i), cardClass := "resource-card " ++ st, title := n,
        typeLine := "Type: " ++ t, statusLine := "Status: " ++ st }) := by
  constructor
  · intro a b h1 h2 h3 h4
    simp [renderResourceCard, h1, h2, h3, h4]
  · intro i n t st
    rfl

/-- Witness for C6 (amended): the name-carrying resource object renders the
same card as a permutation of its fields. -/
theorem C6_rendered_fields_witness :
    renderResourceCard backendResourceExample =
      renderResourceCard (Json.obj [("status", Json.str "Available"), ("id", Json.num 1),
        ("name", Json.str "Bed 1"), ("type", Json.str "bed")]) :=
  C6_rendered_fields.1 backendResourceExample
    (Json.obj [("status", Json.str "Available"), ("id", Json.num 1),
      ("name", Json.str "Bed 1"), ("type", Json.str "bed")]) rfl rfl rfl rfl

/-- C7: a submission with unknown resourceType, priority outside 1-4, or
non-positive duration is rejected synchronously with an error naming the
failing field, and nothing is enqueued (the error result carries no
successor state). -/
theorem C7_validation (st : ManagerState) (patient rt : String) (p d : Int)
    (h : rt ∉ coreResourceTypes ∨ p < 1 ∨ 4 < p ∨ d ≤ 0) :
    ∃ e : ValidationError, submitRequest st patient rt p d = Except.error e ∧
      ((validationField e = "resource_type" ∧ rt ∉ coreResourceTypes) ∨
       (validationField e = "priority" ∧ (p < 1 ∨ 4 < p)) ∨
       (validationField e = "duration" ∧ d ≤ 0)) := by
  by_cases hrt : rt ∈ coreResourceTypes
  · by_cases hp : 1 ≤ p ∧ p ≤ 4
    · by_cases hd : 0 < d
      · exfalso
        rcases h with h | h | h | h
        · exact h hrt
        · omega
        · omega
        · omega
      · refine ⟨ValidationError.badDuration, ?_, Or.inr (Or.inr ⟨rfl, by omega⟩)⟩
        simp [submitRequest, validateSubmission, hrt, hp, hd]
    · refine ⟨ValidationError.badPriority, ?_, Or.inr (Or.inl ⟨rfl, by omega⟩)⟩
      simp [submitRequest, validateSubmission, hrt, hp]
  · refine ⟨ValidationError.badResourceType, ?_, Or.inl ⟨rfl, hrt⟩⟩
    simp [submitRequest, validateSubmission, hrt]

/-- Witness for C7: a submission with the unknown resource type Spaceship
is rejected with the failing field named. -/
theorem C7_validation_witness :
    ∃ e : ValidationError,
      submitRequest ⟨1, 0, []⟩ "Ann" "Spaceship" 2 30 = Except.error e ∧
      ((validationField e = "resource_type" ∧ "Spaceship" ∉ coreResourceTypes) ∨
       (validationField e = "priority" ∧ ((2 : Int) < 1 ∨ 4 < (2 : Int))) ∨
       (validationField e = "duration" ∧ (30 : Int) ≤ 0)) :=
  C7_validation ⟨1, 0, []⟩ "Ann" "Spaceship" 2 30 (Or.inl (by decide))

/-- C8: the form performs no client-side validation — clearing the duration
input makes parseInt yield NaN, which serializes as a null duration in the
payload; an empty patient name is sent as the empty string; and the submit
handler unconditionally issues the createRequest call with the serialized
form state. -/
theorem C8_no_client_validation :
    ∀ (s : FormState) (resp : Json),
      jlookup (jsonOfForm (applyEvent s (FormEvent.setDuration ""))) "duration" =
        some Json.null ∧
      jlookup (jsonOfForm (applyEvent s (FormEvent.setPatientName ""))) "patient_name" =
        some (Json.str "") ∧
      (requestFormOnSubmit s resp).fst = createRequestCall (jsonOfForm s) :=
  fun _ _ => ⟨rfl, rfl, rfl⟩

/-- C9: when the scheduler response body has no allocations field (or a
null one), SchedulePanel passes the empty array to setAllocations, and
AllocationResults renders the empty-state message exactly when the list it
receives is empty. -/
theorem C9_missing_allocations (fields : List (String × Json))
    (h : jlookup (Json.obj fields) "allocations" = none ∨
         jlookup (Json.obj fields) "allocations" = some Json.null) :
    runAllocationsArg (Json.obj fields) = Json.arr [] ∧
    (∀ xs : List Json, allocationResults xs = AllocView.emptyMsg ↔ xs = []) := by
  constructor
  · rcases h with h | h
    · unfold runAllocationsArg
      rw [h]
    · unfold runAllocationsArg
      rw [h]
      rfl
  · intro xs
    cases xs with
    | nil => simp [allocationResults]
    | cons a xs => simp [allocationResults]

/-- Witness for C9: an error-shaped body without an allocations field
yields the empty list, and the empty list renders the empty-state message. -/
theorem C9_missing_allocations_witness :
    runAllocationsArg (Json.obj [("error", Json.str "Unknown scheduler")]) = Json.arr [] ∧
    (∀ xs : List Json, allocationResults xs = AllocView.emptyMsg ↔ xs = []) :=
  C9_missing_allocations [("error", Json.str "Unknown scheduler")] (Or.inl rfl)

/-- C10: none of the three API client functions inspects the HTTP status —
the value each returns is a function of the parsed body alone, and it is
the parsed body whenever the body parses. -/
theorem C10_status_ignored :
    (∀ r1 r2 : HttpResponse, r1.parsedBody = r2.parsedBody →
      createRequestResult r1 = createRequestResult r2 ∧
      runSchedulerResult r1 = runSchedulerResult r2 ∧
      getResourcesResult r1 = getResourcesResult r2) ∧
    (∀ (r : HttpResponse) (j : Json),
      (createRequestResult r = Except.ok j ↔ r.parsedBody = some j) ∧
      (runSchedulerResult r = Except.ok j ↔ r.parsedBody = some j) ∧
      (getResourcesResult r = Except.ok j ↔ r.parsedBody = some j)) := by
  constructor
  · intro r1 r2 h
    refine ⟨?_, ?_, ?_⟩ <;>
      simp [createRequestResult, runSchedulerResult, getResourcesResult, resJson, h]
  · intro r j
    cases hb : r.parsedBody with
    | none =>
      refine ⟨?_, ?_, ?_⟩ <;>
        simp [createRequestResult, runSchedulerResult, getResourcesResult, resJson, hb]
    | some b =>
      refine ⟨?_, ?_, ?_⟩ <;>
        simp [createRequestResult, runSchedulerResult, getResourcesResult, resJson, hb]

/-- Witness for C10: a 200 and a 500 response with the same body yield the
same values from all three API functions. -/
theorem C10_status_ignored_witness :
    createRequestResult ⟨200, some Json.null⟩ = createRequestResult ⟨500, some Json.null⟩ ∧
    runSchedulerResult ⟨200, some Json.null⟩ = runSchedulerResult ⟨500, some Json.null⟩ ∧
    getResourcesResult ⟨200, some Json.null⟩ = getResourcesResult ⟨500, some Json.null⟩ :=
  C10_status_ignored.1 ⟨200, some Json.null⟩ ⟨500, some Json.null⟩ rfl
